import Mathlib

/-!
Shallow embedding of `src/public/script.js` (browser-injected analytics layer
for a hotel booking widget). The file embeds, straight from the source:

* the purchase tracker IIFE (lines 3-218): `executeTrackingLogic`,
  `checkConfirmationPage`, the 200 ms check interval and the
  `window.__purchaseEventFired` / `window.__purchaseEventCheckInterval` flags;
* the price poll `checkPrice` inside `getPriceValue` (lines 238-261) and the
  attempt-bounded button poll `checkButton` inside `trackPaymentSubmitClick`
  (lines 470-528);
* the `document.body` retry loop `tryObserveBody` inside `trackPaymentError`
  (lines 534-609);
* the cancellation-banner watcher (lines 895-1041): `handleUrlChange`, its
  initial-check interval, mutation observer and 50 ms debounce timer;
* the chains of `history.pushState` / `history.replaceState` wrappers
  installed by the successive IIFEs;
* `buildDealBadge` and the pricing constants (lines 673-772).

JS numbers that hold prices are decimal amounts with two fractional digits;
they are modelled as exact cents (`Nat`) or as `Rat`, and `toFixed(2)` as
round-half-up to cents. Timer callbacks are modelled as explicit actions fed
to a step function; a cleared interval or disconnected observer is a `false`
liveness flag, and a callback action on a dead handle is a no-op, matching
the host guarantee that cleared timers never fire.
-/

/-- Character-list prefix test, used to embed JavaScript `String.includes`. -/
def startsWithChars : List Char → List Char → Bool
  | _, [] => true
  | [], _ :: _ => false
  | c :: cs, p :: ps => c == p && startsWithChars cs ps

/-- Character-list containment test (JavaScript `String.includes`). -/
def containsChars : List Char → List Char → Bool
  | [], pat => startsWithChars [] pat
  | c :: cs, pat => startsWithChars (c :: cs) pat || containsChars cs pat

/-- `url.includes(pat)` from the script's route predicates. -/
def urlIncludes (url pat : String) : Bool := containsChars url.data pat.data

/-- The route predicate substring of `checkConfirmationPage` (script.js:162). -/
def confirmationPat : String := "/confirmation"

/-- What the page offers to the purchase tracker when a callback runs: the
current URL, the reservation id extracted by `getReservationIdFromPageText`
(script.js:31-54, `none` when absent), the grand total extracted by
`getTotalAmount` (script.js:62-77) in cents (`none` when the element or a
`\d+\.\d{2}` match is missing), and whether `fbq` is a function. -/
structure Page where
  url : String
  reservationId : Option String
  grandTotalCents : Option Nat
  fbqAvailable : Bool
deriving DecidableEq, Repr

/-- Externally visible effects of `executeTrackingLogic`: the Zapier webhook
fetch (script.js:121-128) and the `fbq('track', 'Purchase', …)` pixel call
(script.js:142). -/
inductive TrackEvent
  | zapier (rid : String) (cents : Nat)
  | fbqPurchase (rid : String) (cents : Nat)
deriving DecidableEq, Repr

/-- `executeTrackingLogic` (script.js:84-152). Takes the page content and the
current `window.__purchaseEventFired` flag; returns the JS return value, the
new flag, and the emitted events. `!value` in JS is true for both `null` and
`0`, so a zero grand total aborts exactly like a missing one. The pixel call
is guarded by `typeof fbq === 'function' && !window.__purchaseEventFired`
(script.js:133) and sets the flag (script.js:144); the Zapier fetch is not
guarded by the flag. -/
def executeTrackingLogic (pg : Page) (fired : Bool) : Bool × Bool × List TrackEvent :=
  match pg.reservationId with
  | none => (false, fired, [])
  | some rid =>
    match pg.grandTotalCents with
    | none => (false, fired, [])
    | some v =>
      if v = 0 then (false, fired, [])
      else if pg.fbqAvailable && !fired then
        (true, true, [TrackEvent.zapier rid v, TrackEvent.fbqPurchase rid v])
      else
        (true, fired, [TrackEvent.zapier rid v])

/-- The purchase tracker's mutable globals: `window.__purchaseEventFired`
(absent is modelled `false`) and whether `window.__purchaseEventCheckInterval`
currently holds a live interval. -/
structure TrackState where
  fired : Bool
  intervalActive : Bool
deriving DecidableEq, Repr

/-- `checkConfirmationPage` (script.js:158-184). On a matching URL it creates
the 200 ms check interval unless one exists; on a non-matching URL it clears
the interval and deletes `window.__purchaseEventFired`, but only when an
interval is still live (script.js:177-182). -/
def checkConfirmationPage (pg : Page) (s : TrackState) : TrackState :=
  if urlIncludes pg.url confirmationPat then
    if s.intervalActive then s else { s with intervalActive := true }
  else
    if s.intervalActive then { fired := false, intervalActive := false } else s

/-- One tick of the check interval (script.js:166-173): runs
`executeTrackingLogic` and clears the interval exactly when it returned
`true`. A tick on a cleared interval is a no-op. -/
def intervalTick (pg : Page) (s : TrackState) : TrackState × List TrackEvent :=
  if s.intervalActive then
    let r := executeTrackingLogic pg s.fired
    if r.1 then ({ fired := r.2.1, intervalActive := false }, r.2.2)
    else ({ fired := r.2.1, intervalActive := true }, r.2.2)
  else (s, [])

/-- A scheduler event delivered to the purchase tracker: a navigation signal
(DOMContentLoaded, popstate, or a wrapped history call, all of which invoke
`checkConfirmationPage`) or an interval tick, each seeing the page content
current at that moment. -/
inductive TrackAction
  | nav (pg : Page)
  | tick (pg : Page)
deriving DecidableEq, Repr

/-- The page content an action observes. -/
def actionPage : TrackAction → Page
  | TrackAction.nav pg => pg
  | TrackAction.tick pg => pg

/-- One scheduler step of the purchase tracker. -/
def trackStep (s : TrackState) : TrackAction → TrackState × List TrackEvent
  | TrackAction.nav pg => (checkConfirmationPage pg s, [])
  | TrackAction.tick pg => intervalTick pg s

/-- Run the purchase tracker over a sequence of scheduler events,
accumulating the emitted analytics events. -/
def trackRun : TrackState → List TrackAction → TrackState × List TrackEvent
  | s, [] => (s, [])
  | s, a :: rest =>
    ((trackRun (trackStep s a).1 rest).1,
      (trackStep s a).2 ++ (trackRun (trackStep s a).1 rest).2)

/-- Recognizer for the Purchase pixel event. -/
def isFbqPurchase : TrackEvent → Bool
  | TrackEvent.fbqPurchase _ _ => true
  | _ => false

/-- Number of `fbq('track', 'Purchase', …)` invocations in an event trace. -/
def countFbq (evs : List TrackEvent) : Nat := (evs.filter isFbqPurchase).length

/-- State at script start: flag absent, no interval. -/
def trackInit : TrackState := { fired := false, intervalActive := false }

/-- A concrete confirmation-page URL. -/
def confUrl : String := "https://hotel.example.com/confirmation"

/-- A concrete non-matching URL. -/
def homeUrl : String := "https://hotel.example.com/rooms"

/-- A concrete reservation id as matched by `#([A-Z0-9-]+)` (script.js:41). -/
def ridABC : String := "ABC123"

/-- Confirmation page with reservation id, a 100.00 USD grand total, and
`fbq` available: the successful-tracking scenario. -/
def confGoodPage : Page :=
  { url := confUrl, reservationId := some ridABC, grandTotalCents := some 10000,
    fbqAvailable := true }

/-- A non-matching page (no reservation data). -/
def homePage : Page :=
  { url := homeUrl, reservationId := none, grandTotalCents := none, fbqAvailable := true }

/-- Confirmation page whose reservation id never appears: the readiness
element is never found, so every tick leaves the interval running. -/
def noDataConfPage : Page :=
  { url := confUrl, reservationId := none, grandTotalCents := none, fbqAvailable := true }

/-- Outcome of one invocation of `checkPrice` inside `getPriceValue`
(script.js:241-257): either the promise resolves with a positive value and
polling stops, or another `setTimeout(checkPrice, 200)` is scheduled. -/
inductive PricePollNext
  | resolved (cents : Nat)
  | again
deriving DecidableEq, Repr

/-- `checkPrice` (script.js:241-257). `priceCents` is the `\d+\.\d{2}` match
of the banner grand total in cents (`none` when element or match is absent).
The closure variable `attempts` is incremented on every miss but never
consulted: the reschedule at script.js:256 is unconditional. -/
def checkPrice (priceCents : Option Nat) (_attempts : Nat) : PricePollNext :=
  match priceCents with
  | some v => if 0 < v then PricePollNext.resolved v else PricePollNext.again
  | none => PricePollNext.again

/-- `maxAttempts` in `trackPaymentSubmitClick` (script.js:479). -/
def paymentSubmitMaxAttempts : Nat := 20

/-- Retry delay of `checkButton` in `trackPaymentSubmitClick`
(script.js:522), in milliseconds. -/
def paymentSubmitRetryDelayMs : Nat := 200

/-- Outcome of one invocation of `checkButton` (script.js:481-526): listener
attached (stop), retry scheduled, or the one timeout warning (stop). -/
inductive ButtonPollNext
  | attached
  | retry
  | timeoutWarn
deriving DecidableEq, Repr

/-- `checkButton` (script.js:481-526): stops when the Book Now button is
present; otherwise retries while `attempts < maxAttempts`, else logs the
timeout warning and stops. -/
def checkButton (buttonPresent : Bool) (attempts : Nat) : ButtonPollNext :=
  if buttonPresent then ButtonPollNext.attached
  else if attempts < paymentSubmitMaxAttempts then ButtonPollNext.retry
  else ButtonPollNext.timeoutWarn

/-- The `checkButton` loop when the button never appears, with `fuel` an
upper bound on how many invocations the host could ever deliver. Returns
(number of callback invocations, number of timeout warnings). -/
def buttonPollNeverFound : Nat → Nat → Nat × Nat
  | 0, _ => (0, 0)
  | fuel + 1, attempts =>
    match checkButton false attempts with
    | ButtonPollNext.attached => (1, 0)
    | ButtonPollNext.retry =>
      ((buttonPollNeverFound fuel (attempts + 1)).1 + 1,
        (buttonPollNeverFound fuel (attempts + 1)).2)
    | ButtonPollNext.timeoutWarn => (1, 1)

/-- `maxBodyCheckAttempts` in `trackPaymentError` (script.js:591). -/
def maxBodyCheckAttempts : Nat := 20

/-- Retry delay of `tryObserveBody` (script.js:602), in milliseconds. -/
def bodyRetryDelayMs : Nat := 200

/-- Mutable outcome of `trackPaymentError`'s observer setup:
`window.__paymentErrorObserverInitialized` (set at script.js:598 only),
whether a MutationObserver is observing `document.body`, and how many
give-up warnings (script.js:604) were logged. -/
structure ObsState where
  flagSet : Bool
  observing : Bool
  warnCount : Nat
deriving DecidableEq, Repr

/-- One invocation of `tryObserveBody` (script.js:593-606): if
`document.body` exists, attach the observer and set the flag; else while
`bodyCheckAttempts < maxBodyCheckAttempts` reschedule with the incremented
counter; else log the warning. `none` means no further invocation was
scheduled, `some a` means rescheduled with counter `a`. -/
def tryObserveStep (bodyPresent : Bool) (attempts : Nat) (s : ObsState) :
    ObsState × Option Nat :=
  if bodyPresent then
    ({ s with observing := true, flagSet := true }, none)
  else if attempts < maxBodyCheckAttempts then
    (s, some (attempts + 1))
  else
    ({ s with warnCount := s.warnCount + 1 }, none)

/-- The `tryObserveBody` retry loop driven by the body-presence value seen at
each scheduled invocation; stops as soon as an invocation does not
reschedule. -/
def tryObserveLoop : List Bool → Nat → ObsState → ObsState
  | [], _, s => s
  | b :: bs, attempts, s =>
    match tryObserveStep b attempts s with
    | (s', none) => s'
    | (s', some a') => tryObserveLoop bs a' s'

/-- Mutable state of the cancellation-banner script (script.js:895-1041):
the initial-check interval (`initialCheckIntervalId`), its attempt counter,
the mutation observer, and whether the 50 ms debounce timeout set by the
observer callback (`window._bannerInsertDebounceTimer`, script.js:959) is
pending. -/
structure BannerState where
  initialCheckActive : Bool
  initialCheckAttempt : Nat
  observerActive : Bool
  debouncePending : Bool
deriving DecidableEq, Repr

/-- `INITIAL_CHECK_MAX_ATTEMPTS` (script.js:905). -/
def INITIAL_CHECK_MAX_ATTEMPTS : Nat := 50

/-- Callback executions observable from the banner script. -/
inductive BannerEvent
  | initialTickRan
  | observerCallbackRan
  | debounceCallbackRan
deriving DecidableEq, Repr

/-- Scheduler events delivered to the banner script: a navigation signal
(runs `handleUrlChange`, with the route predicate already evaluated), an
initial-check interval tick (`inserted` = the `insertBanner()` result), a
delivered DOM mutation (`relevant` as computed at script.js:948-955), and
the 50 ms debounce timeout firing. -/
inductive BannerAction
  | nav (isTarget : Bool)
  | initialTick (inserted : Bool)
  | mutate (relevant : Bool)
  | debounceFire
deriving DecidableEq, Repr

/-- `handleUrlChange` of the banner script (script.js:981-1019). On the
target page: clear any interval and observer, reset the counter, start a new
interval. Otherwise: clear the interval and disconnect the observer
(script.js:1012-1018). Neither branch touches
`window._bannerInsertDebounceTimer`. -/
def handleUrlChange (isTarget : Bool) (s : BannerState) : BannerState :=
  if isTarget then
    { initialCheckActive := true, initialCheckAttempt := 0,
      observerActive := false, debouncePending := s.debouncePending }
  else
    { initialCheckActive := false, initialCheckAttempt := s.initialCheckAttempt,
      observerActive := false, debouncePending := s.debouncePending }

/-- One banner scheduler step. The interval tick (script.js:999-1010) stops
the interval when `insertBanner()` succeeded or the attempt budget is
exhausted, attaching the observer only in the success case; the counter is
incremented on every tick. The observer callback (script.js:947-970)
(re)sets the debounce timeout on a relevant mutation. Ticks of a cleared
interval, callbacks of a disconnected observer, and a fire of a non-pending
debounce are no-ops. -/
def bannerStep (s : BannerState) : BannerAction → BannerState × List BannerEvent
  | BannerAction.nav t => (handleUrlChange t s, [])
  | BannerAction.initialTick inserted =>
    if s.initialCheckActive then
      if inserted || decide (s.initialCheckAttempt ≥ INITIAL_CHECK_MAX_ATTEMPTS) then
        if s.initialCheckAttempt ≥ INITIAL_CHECK_MAX_ATTEMPTS then
          ({ s with
              initialCheckActive := false
              initialCheckAttempt := s.initialCheckAttempt + 1 },
            [BannerEvent.initialTickRan])
        else
          ({ s with
              initialCheckActive := false
              observerActive := true
              initialCheckAttempt := s.initialCheckAttempt + 1 },
            [BannerEvent.initialTickRan])
      else
        ({ s with initialCheckAttempt := s.initialCheckAttempt + 1 },
          [BannerEvent.initialTickRan])
    else (s, [])
  | BannerAction.mutate relevant =>
    if s.observerActive then
      (if relevant then { s with debouncePending := true } else s,
        [BannerEvent.observerCallbackRan])
    else (s, [])
  | BannerAction.debounceFire =>
    if s.debouncePending then
      ({ s with debouncePending := false }, [BannerEvent.debounceCallbackRan])
    else (s, [])

/-- Run the banner script over a sequence of scheduler events. -/
def bannerRun : BannerState → List BannerAction → BannerState × List BannerEvent
  | s, [] => (s, [])
  | s, a :: rest =>
    ((bannerRun (bannerStep s a).1 rest).1,
      (bannerStep s a).2 ++ (bannerRun (bannerStep s a).1 rest).2)

/-- Poll-timer and observer callbacks: the callbacks the released session
owns directly (its interval and its MutationObserver). -/
def isPollOrObserverAction : BannerAction → Bool
  | BannerAction.initialTick _ => true
  | BannerAction.mutate _ => true
  | _ => false

/-- Banner script state at script start. -/
def bannerInit : BannerState :=
  { initialCheckActive := false, initialCheckAttempt := 0,
    observerActive := false, debouncePending := false }

/-- Banner state after: enter the guests page, banner inserted on the first
tick (observer attached), one relevant mutation (debounce scheduled), then
navigation away (release). -/
def bannerReleasedPending : BannerState :=
  { initialCheckActive := false, initialCheckAttempt := 1,
    observerActive := false, debouncePending := true }

/-- A fully live banner session: interval polling, observer attached,
debounce pending. -/
def bannerLive : BannerState :=
  { initialCheckActive := true, initialCheckAttempt := 3,
    observerActive := true, debouncePending := true }

/-- The URL re-check handlers the successive IIFEs schedule from their
history wrappers, in source order. -/
inductive Handler
  | checkConfirmationPageH
  | searchInitH
  | checkForTrackingEventsH
  | bannerH
  | depositClarificationH
  | depositRewriteH
  | securityMessageH
deriving DecidableEq, Repr

/-- A history-wrapper layer: `function() { orig.apply(this, arguments);
setTimeout(handler, 50); }`. `α` bundles the receiver and argument list,
`σ` the host's session-history state; the wrapped call first applies the
original with the same receiver and arguments, then schedules the layer's
own re-check handler. -/
def wrapHistory {σ α : Type} (h : Handler) (orig : α → σ → σ × List Handler) :
    α → σ → σ × List Handler :=
  fun args s =>
    ((orig args s).1, (orig args s).2 ++ [h])

/-- The native history function, which schedules no re-check. -/
def liftNative {σ α : Type} (native : α → σ → σ) : α → σ → σ × List Handler :=
  fun args s => (native args s, [])

/-- The `history.pushState` chain after all IIFEs ran: script.js:201-206,
332-335, 651-657, 1026-1031, 1311-1316, 1434-1444, 1611-1616, each wrapping
the previously installed value (innermost = native). -/
def installedPushState {σ α : Type} (native : α → σ → σ) : α → σ → σ × List Handler :=
  wrapHistory Handler.securityMessageH
    (wrapHistory Handler.depositRewriteH
      (wrapHistory Handler.depositClarificationH
        (wrapHistory Handler.bannerH
          (wrapHistory Handler.checkForTrackingEventsH
            (wrapHistory Handler.searchInitH
              (wrapHistory Handler.checkConfirmationPageH (liftNative native)))))))

/-- The `history.replaceState` chain: script.js:208-213, 1033-1038,
1317-1322, 1446-1456, 1618-1623. -/
def installedReplaceState {σ α : Type} (native : α → σ → σ) : α → σ → σ × List Handler :=
  wrapHistory Handler.securityMessageH
    (wrapHistory Handler.depositRewriteH
      (wrapHistory Handler.depositClarificationH
        (wrapHistory Handler.bannerH
          (wrapHistory Handler.checkConfirmationPageH (liftNative native)))))

/-- `NIGHTLY` (script.js:676). -/
def NIGHTLY : ℚ := 70

/-- `WEEKLY` (script.js:677). -/
def WEEKLY : ℚ := 299

/-- `MONTHLY` (script.js:678). -/
def MONTHLY : ℚ := 1099

/-- `MONTHLY_NIGHTS_THRESHOLD` (script.js:683). -/
def MONTHLY_NIGHTS_THRESHOLD : Nat := 30

/-- `(x).toFixed(2)` reparsed as a number: round half up to hundredths.
JS numbers are modelled as exact rationals. -/
def round2 (q : ℚ) : ℚ := (⌊q * 100 + 1 / 2⌋ : ℚ) / 100

/-- `WEEK_N = +(WEEKLY / 7).toFixed(2)` (script.js:679). -/
def WEEK_N : ℚ := round2 (WEEKLY / 7)

/-- The three dollar figures `buildDealBadge` renders (script.js:764-770). -/
structure DealBadge where
  originalTotal : ℚ
  discountedTotal : ℚ
  halfToday : ℚ
deriving DecidableEq, Repr

/-- `buildDealBadge` (script.js:742-772): tiered discounted total (months at
`MONTHLY`, then weeks at `WEEKLY`, then leftover nights at `WEEK_N`),
re-rounded via `toFixed(2)`; original price at the nightly rate; and the
50% down payment, rounded via `toFixed(2)`. -/
def buildDealBadge (nights : Nat) : DealBadge :=
  let months := nights / MONTHLY_NIGHTS_THRESHOLD
  let rem1 := nights % MONTHLY_NIGHTS_THRESHOLD
  let weeks := rem1 / 7
  let rem2 := rem1 % 7
  let discounted :=
    round2 ((months : ℚ) * MONTHLY + (weeks : ℚ) * WEEKLY + (rem2 : ℚ) * WEEK_N)
  { originalTotal := (nights : ℚ) * NIGHTLY
    discountedTotal := discounted
    halfToday := round2 (discounted / 2) }

/-- Pixel budget of a session: one remaining fire when the flag is unset,
none once it is set. -/
def sessionBudget (s : TrackState) : Nat := if s.fired then 0 else 1

/-- `countFbq` adds over trace concatenation. -/
theorem countFbq_append (l1 l2 : List TrackEvent) :
    countFbq (l1 ++ l2) = countFbq l1 + countFbq l2 := by
  simp [countFbq, List.filter_append]

/-- A Zapier fetch is not a pixel event. -/
@[simp]
theorem isFbqPurchase_zapier (rid : String) (v : Nat) :
    isFbqPurchase (TrackEvent.zapier rid v) = false := rfl

/-- A Purchase pixel call is a pixel event. -/
@[simp]
theorem isFbqPurchase_purchase (rid : String) (v : Nat) :
    isFbqPurchase (TrackEvent.fbqPurchase rid v) = true := rfl

/-- `executeTrackingLogic` fires the pixel at most within the flag budget:
it emits a Purchase event only when the flag was unset, and then sets it. -/
theorem executeTrackingLogic_fbqBudget (pg : Page) (fired : Bool) :
    countFbq (executeTrackingLogic pg fired).2.2
        + (if (executeTrackingLogic pg fired).2.1 then 0 else 1)
      ≤ if fired then 0 else 1 := by
  obtain ⟨u, rid, total, fbqA⟩ := pg
  cases rid <;> cases total <;> cases fired <;> cases fbqA <;>
    simp [executeTrackingLogic, countFbq, isFbqPurchase] <;>
    split <;> simp

/-- Within an active session (matching URL), one scheduler step consumes at
most the remaining pixel budget. -/
theorem trackStep_fbqBudget (s : TrackState) (a : TrackAction)
    (h : urlIncludes (actionPage a).url confirmationPat = true) :
    countFbq (trackStep s a).2 + sessionBudget (trackStep s a).1 ≤ sessionBudget s := by
  cases a with
  | nav pg =>
    simp only [actionPage] at h
    simp only [trackStep, checkConfirmationPage, h, if_true]
    by_cases hi : s.intervalActive = true <;>
      simp [hi, sessionBudget, countFbq]
  | tick pg =>
    by_cases hi : s.intervalActive = true
    · have hb := executeTrackingLogic_fbqBudget pg s.fired
      simp only [trackStep, intervalTick, hi, if_true]
      split <;> simpa [sessionBudget] using hb
    · simp [trackStep, intervalTick, hi, sessionBudget, countFbq]

/-- Running any number of steps inside an active session consumes at most
the initial pixel budget. -/
theorem trackRun_fbqBudget (acts : List TrackAction) (s : TrackState)
    (h : ∀ a ∈ acts, urlIncludes (actionPage a).url confirmationPat = true) :
    countFbq (trackRun s acts).2 + sessionBudget (trackRun s acts).1
      ≤ sessionBudget s := by
  induction acts generalizing s with
  | nil => simp [trackRun, countFbq]
  | cons a rest ih =>
    have h1 := trackStep_fbqBudget s a (h a (by simp))
    have h2 := ih (trackStep s a).1 (fun b hb => h b (by simp [hb]))
    simp only [trackRun]
    rw [countFbq_append]
    omega

/-- C1: within one contiguous active session (every navigation signal and
tick sees a URL containing "/confirmation"), once
`window.__purchaseEventFired` is set, no further timer tick or navigation
signal produces another `fbq('track', 'Purchase', …)` invocation. -/
theorem c1_purchase_atMostOnce (s : TrackState) (acts : List TrackAction)
    (hm : ∀ a ∈ acts, urlIncludes (actionPage a).url confirmationPat = true)
    (hf : s.fired = true) :
    countFbq (trackRun s acts).2 = 0 := by
  have h := trackRun_fbqBudget acts s hm
  simp [sessionBudget, hf] at h
  omega

/-- C1 witness: a concrete session with the flag set, one more tick on a
fully loaded confirmation page and one redundant navigation signal: zero
Purchase pixel calls. -/
theorem c1_purchase_atMostOnce_witness :
    ((∀ a ∈ [TrackAction.tick confGoodPage, TrackAction.nav confGoodPage,
        TrackAction.tick confGoodPage],
      urlIncludes (actionPage a).url confirmationPat = true) ∧
      ({ fired := true, intervalActive := true } : TrackState).fired = true) ∧
    countFbq (trackRun { fired := true, intervalActive := true }
      [TrackAction.tick confGoodPage, TrackAction.nav confGoodPage,
        TrackAction.tick confGoodPage]).2 = 0 :=
  ⟨⟨by decide, rfl⟩, c1_purchase_atMostOnce _ _ (by decide) rfl⟩

/-- C4: evaluation at the failing input. From the initial state, on a
confirmation page with reservation id and total present: the pixel fires on
the first tick and the interval is cleared; the subsequent navigation to a
non-matching URL (active→inactive transition) leaves
`window.__purchaseEventFired` still set, because the `delete` at
script.js:181 only runs when an interval is still live; returning to the
confirmation page therefore never re-fires the pixel (one Purchase event in
the whole trace, though the Zapier webhook fires twice). The claim — and the
comment at script.js:180 — require the flag to be cleared by that
transition. -/
theorem c4_firedFlag_survives_inactive_transition :
    (trackRun trackInit [TrackAction.nav confGoodPage, TrackAction.tick confGoodPage,
        TrackAction.nav homePage]).1.fired = true ∧
    (trackRun trackInit [TrackAction.nav confGoodPage, TrackAction.tick confGoodPage,
        TrackAction.nav homePage, TrackAction.nav confGoodPage,
        TrackAction.tick confGoodPage]).1
      = { fired := true, intervalActive := false } ∧
    countFbq (trackRun trackInit [TrackAction.nav confGoodPage,
        TrackAction.tick confGoodPage, TrackAction.nav homePage,
        TrackAction.nav confGoodPage, TrackAction.tick confGoodPage]).2 = 1 := by
  refine ⟨rfl, rfl, rfl⟩

/-- C5: the URL-change handler is idempotent: two consecutive
`checkConfirmationPage` calls with an unchanged URL produce the same state
and the same (empty) event trace as one call, on matching and non-matching
URLs alike. -/
theorem c5_urlHandler_idempotent (pg : Page) (s : TrackState) :
    trackRun s [TrackAction.nav pg, TrackAction.nav pg]
      = trackRun s [TrackAction.nav pg] := by
  simp only [trackRun, trackStep, List.append_nil, List.nil_append]
  unfold checkConfirmationPage
  by_cases h : urlIncludes pg.url confirmationPat = true <;>
    by_cases hi : s.intervalActive = true <;> simp [h, hi]

/-- C9: when no reservation id is found, or the extracted grand total is
missing or zero, `executeTrackingLogic` returns `false` with no external
effect: no Zapier fetch, no pixel event, and the fired flag unchanged. -/
theorem c9_zeroValue_noEffect (pg : Page) (fired : Bool)
    (h : pg.reservationId = none ∨ pg.grandTotalCents = none
        ∨ pg.grandTotalCents = some 0) :
    executeTrackingLogic pg fired = (false, fired, []) := by
  rcases h with h | h | h <;>
    cases hr : pg.reservationId <;>
    simp_all [executeTrackingLogic]

/-- C9 witness: concrete evaluation on a page with no reservation data. -/
theorem c9_zeroValue_noEffect_witness :
    (homePage.reservationId = none ∨ homePage.grandTotalCents = none
        ∨ homePage.grandTotalCents = some 0) ∧
    executeTrackingLogic homePage false = (false, false, []) :=
  ⟨Or.inl rfl, c9_zeroValue_noEffect homePage false (Or.inl rfl)⟩

/-- When the button never appears, the `checkButton` loop performs exactly
`21 - a` invocations from counter `a` and logs exactly one warning,
whatever fuel remains. -/
theorem buttonPollNeverFound_eq (fuel : Nat) :
    ∀ a : Nat, 21 - a ≤ fuel → a ≤ 20 →
      buttonPollNeverFound fuel a = (21 - a, 1) := by
  induction fuel with
  | zero => intro a h1 h2; omega
  | succ k ih =>
    intro a h1 h2
    by_cases hl : a < 20
    · have hc : checkButton false a = ButtonPollNext.retry := by
        simp [checkButton, paymentSubmitMaxAttempts, hl]
      simp [buttonPollNeverFound, hc, ih (a + 1) (by omega) (by omega)]
      omega
    · have ha : a = 20 := by omega
      subst ha
      have hc : checkButton false 20 = ButtonPollNext.timeoutWarn := by
        simp [checkButton, paymentSubmitMaxAttempts]
      simp [buttonPollNeverFound, hc]

/-- A tick on a confirmation page whose readiness data never appears leaves
the interval active and emits nothing, at any attempt count. -/
theorem trackTick_noData (fired : Bool) (n : Nat) :
    trackRun { fired := fired, intervalActive := true }
        (List.replicate n (TrackAction.tick noDataConfPage))
      = ({ fired := fired, intervalActive := true }, []) := by
  induction n with
  | zero => rfl
  | succ k ih =>
    have hstep : trackStep { fired := fired, intervalActive := true }
        (TrackAction.tick noDataConfPage)
        = ({ fired := fired, intervalActive := true }, []) := by
      cases fired <;> rfl
    simp [List.replicate_succ, trackRun, hstep, ih]

/-- C2 counterexample: the claim says that on reaching the maximum attempt
budget the readiness polls stop. In `getPriceValue`'s `checkPrice` the
attempt counter is never consulted: at attempt 20 (the budget
`trackPaymentSubmitClick` uses) and at attempt 1000000 alike, a further
200 ms callback is scheduled; and `checkConfirmationPage`'s interval is
still live after 100 fruitless ticks, with no timeout warning mechanism at
all. -/
theorem c2_unboundedPoll_cex :
    checkPrice none 20 = PricePollNext.again ∧
    checkPrice none 1000000 = PricePollNext.again ∧
    (trackRun { fired := false, intervalActive := true }
        (List.replicate 100 (TrackAction.tick noDataConfPage))).1.intervalActive
      = true := by
  refine ⟨rfl, rfl, ?_⟩
  rw [trackTick_noData]

/-- C2 amended: only `trackPaymentSubmitClick`'s button poll is
attempt-bounded: `checkButton` retries exactly while `attempts < 20` and
then stops with the single timeout warning (21 invocations in all,
regardless of how much scheduler fuel remains). `getPriceValue`'s
`checkPrice` reschedules at every attempt count when the element is
missing, and the `checkConfirmationPage` interval stays live after any
number of fruitless ticks: neither has an attempt budget. -/
theorem c2_pollBudget_amended (n fuel : Nat) (fired : Bool) (hfuel : 21 ≤ fuel) :
    checkButton false n
        = (if n < 20 then ButtonPollNext.retry else ButtonPollNext.timeoutWarn) ∧
    buttonPollNeverFound fuel 0 = (21, 1) ∧
    checkPrice none n = PricePollNext.again ∧
    trackRun { fired := fired, intervalActive := true }
        (List.replicate n (TrackAction.tick noDataConfPage))
      = ({ fired := fired, intervalActive := true }, []) := by
  refine ⟨rfl, ?_, rfl, trackTick_noData fired n⟩
  exact buttonPollNeverFound_eq fuel 0 (by omega) (by omega)

/-- C2 witness: concrete instantiation at attempt 5 with fuel 21. -/
theorem c2_pollBudget_amended_witness :
    21 ≤ 21 ∧
    (checkButton false 5
        = (if 5 < 20 then ButtonPollNext.retry else ButtonPollNext.timeoutWarn) ∧
      buttonPollNeverFound 21 0 = (21, 1) ∧
      checkPrice none 5 = PricePollNext.again ∧
      trackRun { fired := false, intervalActive := true }
          (List.replicate 5 (TrackAction.tick noDataConfPage))
        = ({ fired := false, intervalActive := true }, [])) :=
  ⟨by decide, c2_pollBudget_amended 5 21 false (by decide)⟩

/-- A poll-timer or observer action on a banner state whose interval is
cleared and whose observer is disconnected is a no-op. -/
theorem bannerStep_released (s : BannerState) (a : BannerAction)
    (h1 : s.initialCheckActive = false) (h2 : s.observerActive = false)
    (ha : isPollOrObserverAction a = true) :
    bannerStep s a = (s, []) := by
  cases a <;> simp_all [bannerStep, isPollOrObserverAction]

/-- C3 counterexample: the claim says no timer or observer callback of a
released session fires afterwards, for every signal sequence. Concrete
violating sequence: enter the guests page, first interval tick inserts the
banner (interval stops, observer attached), a relevant mutation runs the
observer callback which schedules the 50 ms debounce timeout, then
navigation away releases the session — `handleUrlChange`
(script.js:1012-1018) clears the interval and disconnects the observer but
does not cancel `window._bannerInsertDebounceTimer` — and the debounce
callback still fires after the release. -/
theorem c3_danglingDebounce_cex :
    (bannerRun bannerInit
        [BannerAction.nav true, BannerAction.initialTick true,
          BannerAction.mutate true, BannerAction.nav false]).1
      = bannerReleasedPending ∧
    bannerReleasedPending.initialCheckActive = false ∧
    bannerReleasedPending.observerActive = false ∧
    bannerStep bannerReleasedPending BannerAction.debounceFire
      = ({ bannerReleasedPending with debouncePending := false },
          [BannerEvent.debounceCallbackRan]) := by
  refine ⟨rfl, rfl, rfl, rfl⟩

/-- C3 amended: releasing the session (`handleUrlChange` on a non-matching
URL) synchronously stops the poll timer and disconnects the mutation
observer, and no interval tick or observer callback of the released session
fires afterwards — any sequence of such callbacks leaves the state unchanged
and emits nothing. However the 50 ms debounce timeout scheduled by the
observer callback is not cancelled by the release (`debouncePending` is
preserved), so its callback can still fire after release. -/
theorem c3_release_amended (s : BannerState) (acts : List BannerAction)
    (h : ∀ a ∈ acts, isPollOrObserverAction a = true) :
    bannerRun (handleUrlChange false s) acts = (handleUrlChange false s, []) ∧
    (handleUrlChange false s).initialCheckActive = false ∧
    (handleUrlChange false s).observerActive = false ∧
    (handleUrlChange false s).debouncePending = s.debouncePending := by
  refine ⟨?_, rfl, rfl, rfl⟩
  have key : ∀ (acts : List BannerAction) (t : BannerState),
      t.initialCheckActive = false → t.observerActive = false →
      (∀ a ∈ acts, isPollOrObserverAction a = true) →
      bannerRun t acts = (t, []) := by
    intro acts
    induction acts with
    | nil => intro t _ _ _; rfl
    | cons a rest ih =>
      intro t h1 h2 hall
      have hstep := bannerStep_released t a h1 h2 (hall a (by simp))
      have hrest := ih t h1 h2 (fun b hb => hall b (by simp [hb]))
      simp [bannerRun, hstep, hrest]
  exact key acts (handleUrlChange false s) rfl rfl h

/-- C3 witness: concrete release from a fully live session (pending
debounce included) followed by one stale tick and one stale mutation. -/
theorem c3_release_amended_witness :
    (∀ a ∈ [BannerAction.initialTick false, BannerAction.mutate true],
        isPollOrObserverAction a = true) ∧
    (bannerRun (handleUrlChange false bannerLive)
        [BannerAction.initialTick false, BannerAction.mutate true]
      = (handleUrlChange false bannerLive, []) ∧
      (handleUrlChange false bannerLive).initialCheckActive = false ∧
      (handleUrlChange false bannerLive).observerActive = false ∧
      (handleUrlChange false bannerLive).debouncePending
        = bannerLive.debouncePending) :=
  ⟨by decide, c3_release_amended _ _ (by decide)⟩

/-- When `document.body` never appears, the `tryObserveBody` loop runs out
of its attempt budget and stops with exactly one additional warning,
leaving the rest of the state untouched, whatever fuel remains. -/
theorem tryObserveLoop_neverFound (k : Nat) :
    ∀ (a : Nat) (s : ObsState), 20 - a < k → a ≤ 20 →
      tryObserveLoop (List.replicate k false) a s
        = { s with warnCount := s.warnCount + 1 } := by
  induction k with
  | zero => intro a s h1 h2; omega
  | succ m ih =>
    intro a s h1 h2
    by_cases hl : a < 20
    · have hstep : tryObserveStep false a s = (s, some (a + 1)) := by
        simp [tryObserveStep, maxBodyCheckAttempts, hl]
      simp only [List.replicate_succ, tryObserveLoop, hstep]
      exact ih (a + 1) s (by omega) (by omega)
    · have ha : a = 20 := by omega
      subst ha
      have hstep : tryObserveStep false 20 s
          = ({ s with warnCount := s.warnCount + 1 }, none) := by
        simp [tryObserveStep, maxBodyCheckAttempts]
      simp only [List.replicate_succ, tryObserveLoop, hstep]

/-- The flag `window.__paymentErrorObserverInitialized` is set by
`tryObserveBody` only together with a successfully observing observer. -/
theorem tryObserveLoop_flagInv (bs : List Bool) :
    ∀ (a : Nat) (s : ObsState), (s.flagSet = true → s.observing = true) →
      (tryObserveLoop bs a s).flagSet = true →
      (tryObserveLoop bs a s).observing = true := by
  induction bs with
  | nil => intro a s h; exact h
  | cons b rest ih =>
    intro a s h
    cases b
    · by_cases hl : a < 20
      · have hstep : tryObserveStep false a s = (s, some (a + 1)) := by
          simp [tryObserveStep, maxBodyCheckAttempts, hl]
        simp only [tryObserveLoop, hstep]
        exact ih (a + 1) s h
      · have hstep : tryObserveStep false a s
            = ({ s with warnCount := s.warnCount + 1 }, none) := by
          simp [tryObserveStep, maxBodyCheckAttempts, hl]
        simp only [tryObserveLoop, hstep]
        exact h
    · have hstep : tryObserveStep true a s
          = ({ s with observing := true, flagSet := true }, none) := by
        simp [tryObserveStep]
      simp only [tryObserveLoop, hstep]
      intro _
      trivial

/-- C6: `trackPaymentError` retries observer creation (when `document.body`
is not yet attached) at the same 200 ms cadence and the same 20-attempt
budget as the `trackPaymentSubmitClick` readiness poll; when the budget is
exhausted the loop stops with exactly one warning (observer not attached,
flag not set), and `window.__paymentErrorObserverInitialized` is set only
after the observer is successfully observing. -/
theorem c6_observerRetry_budget (n : Nat) (bs : List Bool) (a : Nat) (s : ObsState)
    (hinv : s.flagSet = true → s.observing = true) :
    (bodyRetryDelayMs = paymentSubmitRetryDelayMs ∧
      maxBodyCheckAttempts = paymentSubmitMaxAttempts ∧
      bodyRetryDelayMs = 200 ∧ maxBodyCheckAttempts = 20) ∧
    tryObserveLoop (List.replicate (21 + n) false) 0
        { flagSet := false, observing := false, warnCount := 0 }
      = { flagSet := false, observing := false, warnCount := 1 } ∧
    ((tryObserveLoop bs a s).flagSet = true →
      (tryObserveLoop bs a s).observing = true) := by
  refine ⟨⟨rfl, rfl, rfl, rfl⟩, ?_, tryObserveLoop_flagInv bs a s hinv⟩
  exact tryObserveLoop_neverFound (21 + n) 0
    { flagSet := false, observing := false, warnCount := 0 } (by omega) (by omega)

/-- C6 witness: concrete instantiation with a one-shot successful attach. -/
theorem c6_observerRetry_budget_witness :
    (({ flagSet := false, observing := false, warnCount := 0 } : ObsState).flagSet
        = true →
      ({ flagSet := false, observing := false, warnCount := 0 } : ObsState).observing
        = true) ∧
    ((bodyRetryDelayMs = paymentSubmitRetryDelayMs ∧
        maxBodyCheckAttempts = paymentSubmitMaxAttempts ∧
        bodyRetryDelayMs = 200 ∧ maxBodyCheckAttempts = 20) ∧
      tryObserveLoop (List.replicate (21 + 0) false) 0
          { flagSet := false, observing := false, warnCount := 0 }
        = { flagSet := false, observing := false, warnCount := 1 } ∧
      ((tryObserveLoop [true] 0
            { flagSet := false, observing := false, warnCount := 0 }).flagSet = true →
        (tryObserveLoop [true] 0
            { flagSet := false, observing := false, warnCount := 0 }).observing
          = true)) :=
  ⟨fun h => h, c6_observerRetry_budget 0 [true] 0
    { flagSet := false, observing := false, warnCount := 0 } (fun h => h)⟩

/-- C8: every installed `history.pushState` / `history.replaceState` wrapper
delegates to the function it wrapped with the same receiver and arguments
before scheduling its own re-check, so the full installed chains act on the
host's session-history state exactly as the native functions do (and, like
them, return undefined), while scheduling each script's re-check handler in
source order after the native call. -/
theorem c8_historyWrappers_delegate (σ α : Type) (native : α → σ → σ)
    (args : α) (s : σ) :
    (installedPushState native args s).1 = native args s ∧
    (installedPushState native args s).2
      = [Handler.checkConfirmationPageH, Handler.searchInitH,
          Handler.checkForTrackingEventsH, Handler.bannerH,
          Handler.depositClarificationH, Handler.depositRewriteH,
          Handler.securityMessageH] ∧
    (installedReplaceState native args s).1 = native args s ∧
    (installedReplaceState native args s).2
      = [Handler.checkConfirmationPageH, Handler.bannerH,
          Handler.depositClarificationH, Handler.depositRewriteH,
          Handler.securityMessageH] :=
  ⟨rfl, rfl, rfl, rfl⟩

/-- The code's weekly-derived nightly rate `+(299/7).toFixed(2)` is exactly
42.71. -/
theorem WEEK_N_eq : WEEK_N = 4271 / 100 := by
  have hfloor : ⌊(299 / 7 * 100 + 1 / 2 : ℚ)⌋ = (4271 : ℤ) := by
    rw [Int.floor_eq_iff]
    constructor <;> norm_num
  unfold WEEK_N round2 WEEKLY
  rw [hfloor]
  norm_num

/-- C10: for every number of nights `n ≥ 0`, the discounted total rendered
by `buildDealBadge` is `⌊n/30⌋*1099 + ⌊(n mod 30)/7⌋*299 +
((n mod 30) mod 7)*42.71` rounded to two decimals, the struck-through
original price is `n*70`, and the amount shown as due today is half the
discounted total rounded to two decimals. -/
theorem c10_dealBadge_pricing (n : Nat) :
    (buildDealBadge n).discountedTotal
      = round2 (((n / 30 : Nat) : ℚ) * 1099 + (((n % 30) / 7 : Nat) : ℚ) * 299
          + (((n % 30) % 7 : Nat) : ℚ) * (4271 / 100)) ∧
    (buildDealBadge n).originalTotal = (n : ℚ) * 70 ∧
    (buildDealBadge n).halfToday = round2 ((buildDealBadge n).discountedTotal / 2) := by
  refine ⟨?_, rfl, rfl⟩
  simp [buildDealBadge, MONTHLY, WEEKLY, MONTHLY_NIGHTS_THRESHOLD, WEEK_N_eq]
